import Mathlib

/-!
Verification of the ParticleLifeDemo repository: a shallow embedding of the
`Camera` class (src/ui/simulation/Camera.ts) and of the `ParticleSystem`
class (the particle-life simulation engine), with theorems settling the
specification claims about them.

The camera performs only exact field arithmetic, so it is embedded over ℚ
(computable, decidable).  The particle engine uses `Math.sqrt`, so it is
embedded over ℝ with `Real.sqrt`.
-/

namespace ParticleLifeDemo

/-! ## Camera (src/ui/simulation/Camera.ts)

Fields mirror the TS class: a world-space `position` (split into `posX`,
`posY`), a `zoom` scalar, the zoom constraints `minZoom`/`maxZoom`
(defaults 0.1 and 5.0), and the screen size (defaults 1 × 1).
`Math.max(a, Math.min(b, z))` is written `max a (min b z)`. -/

structure Camera where
  posX : ℚ
  posY : ℚ
  zoom : ℚ
  minZoom : ℚ
  maxZoom : ℚ
  screenWidth : ℚ
  screenHeight : ℚ
  deriving DecidableEq

/-- The TS constructor `new Camera(x, y, zoom)`: stores the position and
clamps the initial zoom into the default constraints `[0.1, 5.0]`. -/
def Camera.create (x y zoom : ℚ) : Camera :=
  { posX := x
    posY := y
    zoom := max (1/10) (min 5 zoom)
    minZoom := 1/10
    maxZoom := 5
    screenWidth := 1
    screenHeight := 1 }

/-- TS `setScreenSize(width, height)`. -/
def Camera.setScreenSize (c : Camera) (width height : ℚ) : Camera :=
  { c with screenWidth := width, screenHeight := height }

/-- TS `worldToScreen(worldX, worldY)`:
`(world − position) * zoom + screenSize / 2`, per coordinate. -/
def Camera.worldToScreen (c : Camera) (worldX worldY : ℚ) : ℚ × ℚ :=
  ((worldX - c.posX) * c.zoom + c.screenWidth / 2,
   (worldY - c.posY) * c.zoom + c.screenHeight / 2)

/-- TS `screenToWorld(screenX, screenY)`:
`(screen − screenSize / 2) / zoom + position`, per coordinate. -/
def Camera.screenToWorld (c : Camera) (screenX screenY : ℚ) : ℚ × ℚ :=
  ((screenX - c.screenWidth / 2) / c.zoom + c.posX,
   (screenY - c.screenHeight / 2) / c.zoom + c.posY)

/-- TS `pan(deltaScreenX, deltaScreenY)`: converts the screen delta to a world
delta by dividing by the zoom, then subtracts it from the position. -/
def Camera.pan (c : Camera) (deltaScreenX deltaScreenY : ℚ) : Camera :=
  { c with
    posX := c.posX - deltaScreenX / c.zoom
    posY := c.posY - deltaScreenY / c.zoom }

/-- TS `zoomAt(screenX, screenY, zoomDelta)`: records the world point under the
cursor, clamps `zoom * zoomDelta` into the constraints, then shifts the
position by the difference between the old and new world point under the
cursor. -/
def Camera.zoomAt (c : Camera) (screenX screenY zoomDelta : ℚ) : Camera :=
  let worldPos := c.screenToWorld screenX screenY
  let newZoom := max c.minZoom (min c.maxZoom (c.zoom * zoomDelta))
  let c1 := { c with zoom := newZoom }
  let newWorldPos := c1.screenToWorld screenX screenY
  { c1 with
    posX := c1.posX + (worldPos.1 - newWorldPos.1)
    posY := c1.posY + (worldPos.2 - newWorldPos.2) }

/-- TS `setZoom(newZoom)`: clamps into `[minZoom, maxZoom]`. -/
def Camera.setZoom (c : Camera) (newZoom : ℚ) : Camera :=
  { c with zoom := max c.minZoom (min c.maxZoom newZoom) }

/-- TS `reset()`: position to the origin, zoom to `1.0` (no clamping). -/
def Camera.reset (c : Camera) : Camera :=
  { c with posX := 0, posY := 0, zoom := 1 }

/-- TS `setZoomConstraints(minZoom, maxZoom)`: stores the new constraints and
re-clamps the current zoom into them. -/
def Camera.setZoomConstraints (c : Camera) (mn mx : ℚ) : Camera :=
  { c with minZoom := mn, maxZoom := mx, zoom := max mn (min mx c.zoom) }

/-! ### Claims C4, C5, C9 -/

/-- C4: for every camera state with nonzero zoom, `worldToScreen` and
`screenToWorld` are exact inverses of one another: round-tripping any screen
point or any world point returns it unchanged (exactly, hence within any
floating-point epsilon). -/
theorem Camera.roundTrip (c : Camera) (hz : c.zoom ≠ 0)
    (sx sy wx wy : ℚ) :
    c.worldToScreen (c.screenToWorld sx sy).1 (c.screenToWorld sx sy).2
        = (sx, sy) ∧
    c.screenToWorld (c.worldToScreen wx wy).1 (c.worldToScreen wx wy).2
        = (wx, wy) := by
  unfold Camera.worldToScreen Camera.screenToWorld
  constructor <;> refine Prod.ext ?_ ?_ <;> simp only [] <;>
    field_simp <;> ring

/-- A concrete camera used to witness `Camera.roundTrip`. -/
def demoCam : Camera :=
  { posX := 3, posY := -2, zoom := 2, minZoom := 1/10, maxZoom := 5,
    screenWidth := 800, screenHeight := 600 }

/-- Witness for C4 at a concrete camera and concrete points. -/
theorem Camera.roundTrip_witness :
    demoCam.zoom ≠ 0 ∧
    (demoCam.worldToScreen (demoCam.screenToWorld 5 7).1
        (demoCam.screenToWorld 5 7).2 = (5, 7) ∧
     demoCam.screenToWorld (demoCam.worldToScreen 1 2).1
        (demoCam.worldToScreen 1 2).2 = (1, 2)) :=
  ⟨by norm_num [demoCam], Camera.roundTrip demoCam (by norm_num [demoCam]) 5 7 1 2⟩

/-- C5: the world point under the cursor is invariant across `zoomAt`:
`screenToWorld(sx, sy)` immediately before and after
`zoomAt(sx, sy, k)` are exactly equal, for every camera state. -/
theorem Camera.zoomAt_anchor (c : Camera) (sx sy k : ℚ) :
    (c.zoomAt sx sy k).screenToWorld sx sy = c.screenToWorld sx sy := by
  unfold Camera.zoomAt Camera.screenToWorld
  refine Prod.ext ?_ ?_ <;> simp only [] <;> ring

/-- Camera state reached by `new Camera(0,0,1)`, then
`setZoomConstraints(2, 5)`, then `reset()`: its zoom is 1 while its
`minZoom` is 2. -/
def resetCam : Camera := ((Camera.create 0 0 1).setZoomConstraints 2 5).reset

/-- C9 counterexample: after `reset()` the zoom is NOT within
`[minZoom, maxZoom]` when the constraints exclude 1 — `reset` sets the zoom
to 1 unconditionally, so the claimed invariant fails for the concrete
operation sequence `setZoomConstraints(2,5); reset()`. -/
theorem Camera.reset_violates_clamp :
    ¬ (resetCam.minZoom ≤ resetCam.zoom ∧
       resetCam.zoom ≤ resetCam.maxZoom) := by
  intro h
  have h1 : resetCam.minZoom = 2 := rfl
  have h2 : resetCam.zoom = 1 := rfl
  rw [h1, h2] at h
  exact absurd h.1 (by norm_num)

/-- C9 (amended): construction, `setZoom`, `zoomAt` and
`setZoomConstraints` all leave the zoom inside the (current, resp. newly
set) constraints whenever those constraints are ordered, and `pan` does not
change the zoom; `reset`, however, sets the zoom to 1 unconditionally, so
after `reset` the zoom lies in the constraints exactly when
`minZoom ≤ 1 ≤ maxZoom` (which holds for the default constraints). -/
theorem Camera.zoom_clamped (c : Camera) (hc : c.minZoom ≤ c.maxZoom)
    (x y z sx sy k mn mx dx dy : ℚ) (hmn : mn ≤ mx) :
    (c.minZoom ≤ (c.setZoom z).zoom ∧ (c.setZoom z).zoom ≤ c.maxZoom) ∧
    (c.minZoom ≤ (c.zoomAt sx sy k).zoom ∧
       (c.zoomAt sx sy k).zoom ≤ c.maxZoom) ∧
    (mn ≤ (c.setZoomConstraints mn mx).zoom ∧
       (c.setZoomConstraints mn mx).zoom ≤ mx) ∧
    ((Camera.create x y z).minZoom ≤ (Camera.create x y z).zoom ∧
       (Camera.create x y z).zoom ≤ (Camera.create x y z).maxZoom) ∧
    (c.pan dx dy).zoom = c.zoom ∧
    c.reset.zoom = 1 := by
  refine ⟨⟨le_max_left _ _, max_le hc (min_le_left _ _)⟩,
          ⟨le_max_left _ _, max_le hc (min_le_left _ _)⟩,
          ⟨le_max_left _ _, max_le hmn (min_le_left _ _)⟩,
          ⟨le_max_left _ _,
           max_le (by norm_num [Camera.create]) (min_le_left _ _)⟩,
          rfl, rfl⟩

/-- Witness for the amended C9 at a concrete camera. -/
theorem Camera.zoom_clamped_witness :
    demoCam.minZoom ≤ demoCam.maxZoom ∧ (1 : ℚ) ≤ 3 ∧
    ((demoCam.minZoom ≤ (demoCam.setZoom 9).zoom ∧
        (demoCam.setZoom 9).zoom ≤ demoCam.maxZoom) ∧
     (demoCam.minZoom ≤ (demoCam.zoomAt 4 4 2).zoom ∧
        (demoCam.zoomAt 4 4 2).zoom ≤ demoCam.maxZoom) ∧
     ((1 : ℚ) ≤ (demoCam.setZoomConstraints 1 3).zoom ∧
        (demoCam.setZoomConstraints 1 3).zoom ≤ 3) ∧
     ((Camera.create 0 0 7).minZoom ≤ (Camera.create 0 0 7).zoom ∧
        (Camera.create 0 0 7).zoom ≤ (Camera.create 0 0 7).maxZoom) ∧
     (demoCam.pan 1 1).zoom = demoCam.zoom ∧
     demoCam.reset.zoom = 1) :=
  ⟨by norm_num [demoCam], by norm_num,
   Camera.zoom_clamped demoCam (by norm_num [demoCam]) 0 0 7 4 4 2 1 3 1 1
     (by norm_num)⟩

/-! ## ParticleSystem (the simulation engine)

The engine computes with `Math.sqrt`, so it is embedded over ℝ with
`Real.sqrt`.  The SoA typed arrays (`Float32Array` of interleaved x/y) are
embedded per particle as functions `ℕ → ℝ × ℝ` (entry `i` holds the pair
stored at flat indices `i*2`, `i*2+1`); the interaction matrix keeps its
flat `i * colorCount + j` indexing.  Each `Math.random()` draw is an oracle
value supplied as a parameter. -/

noncomputable section

/-- TS `particleLifeForce(r, a)` from the engine, with `beta = 0.3`:
repulsion `r/beta − 1` for `r < beta`; `a * (1 − |2r − 1 − beta|/(1 − beta))`
for `beta < r < 1` (note the strict lower comparison in the code); else 0. -/
def particleLifeForce (r a : ℝ) : ℝ :=
  if r < 3/10 then r / (3/10) - 1
  else if 3/10 < r ∧ r < 1 then a * (1 - |2 * r - 1 - 3/10| / (1 - 3/10))
  else 0

/-- The inner `hueToRgb(p, q, t)` helper of `hslToRgb`. -/
def hueToRgb (p q t : ℝ) : ℝ :=
  let t1 := if t < 0 then t + 1 else t
  let t2 := if t1 > 1 then t1 - 1 else t1
  if t2 < 1/6 then p + (q - p) * 6 * t2
  else if t2 < 1/2 then q
  else if t2 < 2/3 then p + (q - p) * (2/3 - t2) * 6
  else p

/-- TS `hslToRgb(h, s, l)`. -/
def hslToRgb (h s l : ℝ) : ℝ × ℝ × ℝ :=
  let h1 := h / 360
  let q := if l < 1/2 then l * (1 + s) else l + s - l * s
  let p := 2 * l - q
  (hueToRgb p q (h1 + 1/3), hueToRgb p q h1, hueToRgb p q (h1 - 1/3))

/-- TS `generateColorPalette()`: entry `i` is `hslToRgb((i/colorCount)*360, 0.7, 0.5)`. -/
def generateColorPalette (colorCount : ℕ) : ℕ → ℝ × ℝ × ℝ :=
  fun i => if i < colorCount then
      hslToRgb (((i : ℝ) / (colorCount : ℝ)) * 360) (7/10) (1/2)
    else (0, 0, 0)

/-- TS `generateColorMatrix()` (also the body of `randomizeRules`): flat entry
`i * colorCount + j` is `-0.4` on the diagonal and
`(Math.random() - 0.5) * 3.0` off it; `rng i j` models the draw made for
cell `(i, j)`. -/
def generateColorMatrix (colorCount : ℕ) (rng : ℕ → ℕ → ℝ) : ℕ → ℝ :=
  fun k => if k < colorCount * colorCount then
      (if k / colorCount = k % colorCount then -(2/5)
       else (rng (k / colorCount) (k % colorCount) - 1/2) * 3)
    else 0

/-- The particle data and parameters held by a constructed `ParticleSystem`. -/
structure ParticleSystem where
  particleCount : ℕ
  colorCount : ℕ
  positions : ℕ → ℝ × ℝ
  velocities : ℕ → ℝ × ℝ
  colors : ℕ → ℝ × ℝ × ℝ
  colorIndices : ℕ → ℕ
  sizes : ℕ → ℝ
  forces : ℕ → ℝ × ℝ
  colorPalette : ℕ → ℝ × ℝ × ℝ
  colorMatrix : ℕ → ℝ
  worldWidth : ℝ
  worldHeight : ℝ
  sensingRadius : ℝ
  betaDistance : ℝ

/-- The `ParticleSystemConfig` interface (`worldSize` split into its two
fields; the optional members are `Option`). -/
structure ParticleSystemConfig where
  particleCount : ℤ
  worldWidth : ℝ
  worldHeight : ℝ
  colorCount : ℤ
  sensingRadius : Option ℝ
  betaDistance : Option ℝ

/-- JS `x || d`: a missing value and the falsy value `0` both yield `d`. -/
def orDefault (x : Option ℝ) (d : ℝ) : ℝ :=
  match x with
  | none => d
  | some v => if v = 0 then d else v

/-- TS `new Float32Array(len)` / `new Uint8Array(len)`: throws a `RangeError`
exactly when the requested length is negative — the only way the
`ParticleSystem` constructor can fail. -/
def allocArray (len : ℤ) : Option ℕ :=
  if len < 0 then none else some len.toNat

/-- The `ParticleSystem` constructor: allocates the six per-particle arrays
and the palette and matrix (failing only on a negative length), seeds the
matrix, and runs `initializeParticles` — positions uniform in the centered
world box, zero velocities, random color index `⌊u * colorCount⌋` (stored
into a `Uint8Array`, hence mod 256), palette colors, size 4.0.
`rngMatrix i j`, `rngPosX i`, `rngPosY i`, `rngColor i` model the
`Math.random()` draws. -/
def ParticleSystem.create (cfg : ParticleSystemConfig)
    (rngMatrix : ℕ → ℕ → ℝ) (rngPosX rngPosY rngColor : ℕ → ℝ) :
    Option ParticleSystem := do
  let _ ← allocArray (cfg.particleCount * 2)
  let _ ← allocArray (cfg.particleCount * 2)
  let _ ← allocArray (cfg.particleCount * 3)
  let _ ← allocArray cfg.particleCount
  let _ ← allocArray cfg.particleCount
  let _ ← allocArray (cfg.particleCount * 2)
  let _ ← allocArray (cfg.colorCount * 3)
  let _ ← allocArray (cfg.colorCount * cfg.colorCount)
  let pc := cfg.particleCount.toNat
  let cc := cfg.colorCount.toNat
  let palette := generateColorPalette cc
  some
    { particleCount := pc
      colorCount := cc
      positions := fun i => if i < pc then
          ((rngPosX i - 1/2) * cfg.worldWidth, (rngPosY i - 1/2) * cfg.worldHeight)
        else (0, 0)
      velocities := fun _ => (0, 0)
      colors := fun i => if i < pc then
          palette (⌊rngColor i * (cc : ℝ)⌋.toNat)
        else (0, 0, 0)
      colorIndices := fun i => if i < pc then ⌊rngColor i * (cc : ℝ)⌋.toNat % 256 else 0
      sizes := fun i => if i < pc then 4 else 0
      forces := fun _ => (0, 0)
      colorPalette := palette
      colorMatrix := generateColorMatrix cc rngMatrix
      worldWidth := cfg.worldWidth
      worldHeight := cfg.worldHeight
      sensingRadius := orDefault cfg.sensingRadius 80
      betaDistance := orDefault cfg.betaDistance 15 }

/-- TS `setColorRule(colorA, colorB, strength)`: stores `strength` (unchanged)
at flat index `colorA * colorCount + colorB` when both indices are in
`[0, colorCount)`, otherwise does nothing. -/
def ParticleSystem.setColorRule (s : ParticleSystem)
    (colorA colorB : ℤ) (strength : ℝ) : ParticleSystem :=
  if 0 ≤ colorA ∧ colorA < (s.colorCount : ℤ) ∧
     0 ≤ colorB ∧ colorB < (s.colorCount : ℤ) then
    { s with colorMatrix := fun k =>
        if k = (colorA * (s.colorCount : ℤ) + colorB).toNat then strength
        else s.colorMatrix k }
  else s

/-- TS `getColorRule(colorA, colorB)`: the stored entry for in-range indices,
else 0. -/
def ParticleSystem.getColorRule (s : ParticleSystem) (colorA colorB : ℤ) : ℝ :=
  if 0 ≤ colorA ∧ colorA < (s.colorCount : ℤ) ∧
     0 ≤ colorB ∧ colorB < (s.colorCount : ℤ) then
    s.colorMatrix ((colorA * (s.colorCount : ℤ) + colorB).toNat)
  else 0

/-- TS `randomizeRules()`: reseeds every matrix cell with the same formula as
`generateColorMatrix`. -/
def ParticleSystem.randomizeRules (s : ParticleSystem) (rng : ℕ → ℕ → ℝ) :
    ParticleSystem :=
  { s with colorMatrix := generateColorMatrix s.colorCount rng }

/-- One iteration of the inner pair loop of `calculateForces`: particles
`i < j`, skip when farther than the sensing radius, otherwise accumulate
`±dir * particleLifeForce(distance/sensingRadius, rule)` into the force
entries of `i` and `j`. -/
def ParticleSystem.pairAccum (s : ParticleSystem) (f : ℕ → ℝ × ℝ)
    (i j : ℕ) : ℕ → ℝ × ℝ :=
  let x1 := (s.positions i).1
  let y1 := (s.positions i).2
  let x2 := (s.positions j).1
  let y2 := (s.positions j).2
  let dx := x2 - x1
  let dy := y2 - y1
  let distanceSquared := dx * dx + dy * dy
  if distanceSquared > s.sensingRadius * s.sensingRadius then f
  else
    let distance := Real.sqrt distanceSquared
    let dirX := dx / distance
    let dirY := dy / distance
    let normalizedDistance := distance / s.sensingRadius
    let rule1to2 := s.colorMatrix (s.colorIndices i * s.colorCount + s.colorIndices j)
    let rule2to1 := s.colorMatrix (s.colorIndices j * s.colorCount + s.colorIndices i)
    let force1Magnitude := particleLifeForce normalizedDistance rule1to2
    let force2Magnitude := particleLifeForce normalizedDistance rule2to1
    fun k =>
      if k = i then ((f k).1 + dirX * force1Magnitude, (f k).2 + dirY * force1Magnitude)
      else if k = j then
        ((f k).1 + (-dirX) * force2Magnitude, (f k).2 + (-dirY) * force2Magnitude)
      else f k

/-- TS `calculateForces()`: the double loop `i` from 0, `j` from `i+1`,
accumulating into the forces array; positions, colors and the matrix are
only read. -/
def ParticleSystem.forcesLoop (s : ParticleSystem) : ℕ → ℝ × ℝ :=
  (List.range s.particleCount).foldl
    (fun f i =>
      (List.range s.particleCount).foldl
        (fun g j => if i < j then s.pairAccum g i j else g) f)
    s.forces

/-- TS `calculateForces()` writes the accumulated forces back into the state. -/
def ParticleSystem.calculateForces (s : ParticleSystem) : ParticleSystem :=
  { s with forces := s.forcesLoop }

/-- The speed clamp of `integrate`: when
`speed = Math.sqrt(vx*vx + vy*vy)` exceeds maxSpeed = 120, rescale the
velocity to `(v / speed) * maxSpeed`. -/
def speedClamp (vx vy : ℝ) : ℝ × ℝ :=
  if Real.sqrt (vx * vx + vy * vy) > 120 then
    (vx / Real.sqrt (vx * vx + vy * vy) * 120,
     vy / Real.sqrt (vx * vx + vy * vy) * 120)
  else (vx, vy)

/-- The velocity produced for particle `i` by `integrate(deltaTime)`:
add `force * deltaTime * forceScale` (forceScale = 150), damp by
damping = 0.98, then clamp the speed to maxSpeed = 120. -/
def ParticleSystem.integVel (s : ParticleSystem) (deltaTime : ℝ) (i : ℕ) : ℝ × ℝ :=
  speedClamp (((s.velocities i).1 + (s.forces i).1 * deltaTime * 150) * (98/100))
    (((s.velocities i).2 + (s.forces i).2 * deltaTime * 150) * (98/100))

/-- TS `integrate(deltaTime)`: per particle, update the velocity as in
`integVel` and advance the position by the (new) velocity times
`deltaTime`. -/
def ParticleSystem.integrate (s : ParticleSystem) (deltaTime : ℝ) : ParticleSystem :=
  { s with
    velocities := fun i => if i < s.particleCount then s.integVel deltaTime i
      else s.velocities i
    positions := fun i => if i < s.particleCount then
        ((s.positions i).1 + (s.integVel deltaTime i).1 * deltaTime,
         (s.positions i).2 + (s.integVel deltaTime i).2 * deltaTime)
      else s.positions i }

/-- One coordinate of `handleBoundaries`: add the world size when below
`-half`, then subtract it when above `+half` (both comparisons strict). -/
def wrapCoord (p half w : ℝ) : ℝ :=
  let p1 := if p < -half then p + w else p
  if p1 > half then p1 - w else p1

/-- TS `handleBoundaries()`: wraps each coordinate of each particle once
around the centered world box. -/
def ParticleSystem.handleBoundaries (s : ParticleSystem) : ParticleSystem :=
  { s with positions := fun i => if i < s.particleCount then
      (wrapCoord (s.positions i).1 (s.worldWidth / 2) s.worldWidth,
       wrapCoord (s.positions i).2 (s.worldHeight / 2) s.worldHeight)
    else s.positions i }

/-- TS `update(deltaTime)`: `forces.fill(0)`, `calculateForces()`,
`integrate(deltaTime)`, `handleBoundaries()`. -/
def ParticleSystem.update (s : ParticleSystem) (deltaTime : ℝ) : ParticleSystem :=
  ((({ s with forces := fun _ => (0, 0) } : ParticleSystem).calculateForces).integrate
      deltaTime).handleBoundaries

/-- The force law exactly as the specification words it: `r/β − 1` when
`r < β`; `a · (1 − |2r − 1 − β| / (1 − β))` when `β ≤ r < 1`; 0 when
`r ≥ 1` (β = 0.3).  Used as the reference against `particleLifeForce`. -/
def forceLawSpec (r a : ℝ) : ℝ :=
  if r < 3/10 then r / (3/10) - 1
  else if r < 1 then a * (1 - |2 * r - 1 - 3/10| / (1 - 3/10))
  else 0

/-- The integration step exactly as the specification words it, in order:
`velocity += force * deltaTime * forceScale`; `velocity *= damping`;
`if |velocity| > maxSpeed: velocity = normalize(velocity) * maxSpeed`, with
forceScale = 150, damping = 0.98, maxSpeed = 120.  Used as the reference
against `ParticleSystem.integrate`. -/
def integrationSpec (v f : ℝ × ℝ) (deltaTime : ℝ) : ℝ × ℝ :=
  let v1 := (v.1 + f.1 * deltaTime * 150, v.2 + f.2 * deltaTime * 150)
  let v2 := (v1.1 * (98/100), v1.2 * (98/100))
  let speed := Real.sqrt (v2.1 * v2.1 + v2.2 * v2.2)
  if speed > 120 then (v2.1 / speed * 120, v2.2 / speed * 120) else v2

/-! ## Concrete data for witnesses and counterexamples -/

/-- A concrete one-particle, one-color system: the particle sits at
`(1, 0)` with zero velocity in a 2 × 2 world, and the 1 × 1 interaction
matrix holds the seeded diagonal value `-0.4`. -/
def demoSys : ParticleSystem :=
  { particleCount := 1
    colorCount := 1
    positions := fun _ => (1, 0)
    velocities := fun _ => (0, 0)
    colors := fun _ => (0, 0, 0)
    colorIndices := fun _ => 0
    sizes := fun _ => 4
    forces := fun _ => (0, 0)
    colorPalette := fun _ => (0, 0, 0)
    colorMatrix := fun _ => -(2/5)
    worldWidth := 2
    worldHeight := 2
    sensingRadius := 80
    betaDistance := 15 }

/-! ## Claim C1: the force law -/

/-- C1: for every normalized distance `r` and coefficient `a`,
`particleLifeForce(r, a)` equals the piecewise reference with β = 0.3
(`r/β − 1` below β; `a·(1 − |2r − 1 − β|/(1 − β))` on `[β, 1)`; 0 at and
beyond 1); in particular it is `−1` at `r = 0`, both formulas give 0 at
`r = β`, and the value at `r = 1` is 0. -/
theorem particleLifeForce_matches_spec (r a : ℝ) :
    particleLifeForce r a = forceLawSpec r a ∧
    particleLifeForce 0 a = -1 ∧
    particleLifeForce (3/10) a = 0 ∧
    forceLawSpec (3/10) a = 0 ∧
    particleLifeForce 1 a = 0 := by
  have habs : |2 * (3/10 : ℝ) - 1 - 3/10| = 7/10 := by
    rw [show 2 * (3/10 : ℝ) - 1 - 3/10 = -(7/10) by norm_num, abs_neg,
      abs_of_nonneg (by norm_num : (0:ℝ) ≤ 7/10)]
  have hbeta : particleLifeForce (3/10) a = 0 := by
    unfold particleLifeForce
    rw [if_neg (lt_irrefl (3/10 : ℝ)),
      if_neg (fun hc => lt_irrefl (3/10 : ℝ) hc.1)]
  have hspecbeta : forceLawSpec (3/10) a = 0 := by
    unfold forceLawSpec
    rw [if_neg (lt_irrefl (3/10 : ℝ)), if_pos (by norm_num : (3/10 : ℝ) < 1),
      habs]
    norm_num
  refine ⟨?_, ?_, hbeta, hspecbeta, ?_⟩
  · rcases lt_trichotomy r (3/10) with h | h | h
    · unfold particleLifeForce forceLawSpec
      rw [if_pos h, if_pos h]
    · rw [h, hbeta, hspecbeta]
    · have h0 : ¬ r < 3/10 := not_lt.mpr h.le
      unfold particleLifeForce forceLawSpec
      rw [if_neg h0, if_neg h0]
      by_cases h1 : r < 1
      · rw [if_pos ⟨h, h1⟩, if_pos h1]
      · rw [if_neg (fun hc => h1 hc.2), if_neg h1]
  · unfold particleLifeForce
    rw [if_pos (by norm_num : (0:ℝ) < 3/10)]
    norm_num
  · unfold particleLifeForce
    rw [if_neg (by norm_num : ¬ (1:ℝ) < 3/10),
      if_neg (fun hc => lt_irrefl (1:ℝ) hc.2)]

/-! ## Claim C3: the wrap invariant -/

/-- One wrap step keeps a coordinate within the closed interval
`[-w/2, w/2]`, provided the incoming coordinate is within one world size
of that interval. -/
theorem wrapCoord_range (p w : ℝ)
    (h1 : -(w/2) - w ≤ p) (h2 : p ≤ w/2 + w) :
    -(w/2) ≤ wrapCoord p (w/2) w ∧ wrapCoord p (w/2) w ≤ w/2 := by
  simp only [wrapCoord]
  split_ifs <;> constructor <;> linarith

/-- C3 (amended): after the boundary-handling step, every particle
coordinate lies in the CLOSED interval `[-half, half]` (not the half-open
one: the right endpoint is attainable), provided the incoming coordinate
is within one world size of the domain: the single conditional wrap can
move a coordinate by at most one world width/height. -/
theorem handleBoundaries_range (s : ParticleSystem) (i : ℕ)
    (hi : i < s.particleCount)
    (hx1 : -(s.worldWidth/2) - s.worldWidth ≤ (s.positions i).1)
    (hx2 : (s.positions i).1 ≤ s.worldWidth/2 + s.worldWidth)
    (hy1 : -(s.worldHeight/2) - s.worldHeight ≤ (s.positions i).2)
    (hy2 : (s.positions i).2 ≤ s.worldHeight/2 + s.worldHeight) :
    (-(s.worldWidth/2) ≤ (s.handleBoundaries.positions i).1 ∧
      (s.handleBoundaries.positions i).1 ≤ s.worldWidth/2) ∧
    (-(s.worldHeight/2) ≤ (s.handleBoundaries.positions i).2 ∧
      (s.handleBoundaries.positions i).2 ≤ s.worldHeight/2) := by
  simp only [ParticleSystem.handleBoundaries, if_pos hi]
  exact ⟨wrapCoord_range _ _ hx1 hx2, wrapCoord_range _ _ hy1 hy2⟩

/-- Witness for the amended C3 at the concrete one-particle system. -/
theorem handleBoundaries_range_witness :
    0 < demoSys.particleCount ∧
    ((-(demoSys.worldWidth/2) ≤ (demoSys.handleBoundaries.positions 0).1 ∧
        (demoSys.handleBoundaries.positions 0).1 ≤ demoSys.worldWidth/2) ∧
     (-(demoSys.worldHeight/2) ≤ (demoSys.handleBoundaries.positions 0).2 ∧
        (demoSys.handleBoundaries.positions 0).2 ≤ demoSys.worldHeight/2)) :=
  ⟨Nat.one_pos,
   handleBoundaries_range demoSys 0 Nat.one_pos
     (by norm_num [demoSys]) (by norm_num [demoSys])
     (by norm_num [demoSys]) (by norm_num [demoSys])⟩

/-- The speed clamp at zero velocity: `sqrt 0 = 0 ≤ 120`, so nothing
changes. -/
theorem speedClamp_zero : speedClamp 0 0 = (0, 0) := by
  unfold speedClamp
  rw [show (0:ℝ) * 0 + 0 * 0 = 0 by norm_num, Real.sqrt_zero,
    if_neg (by norm_num : ¬ (0:ℝ) > 120)]

/-- With one particle the pair loop of `calculateForces` is empty, so the
whole call leaves the state unchanged when the forces are already zero. -/
theorem demoSys_calculateForces :
    ({ demoSys with forces := fun _ => (0, 0) } : ParticleSystem).calculateForces
      = demoSys := rfl

/-- The velocity step at the concrete system: zero force and zero velocity
stay zero through scaling, damping and the speed clamp. -/
theorem demoSys_integVel : demoSys.integVel 1 0 = (0, 0) := by
  show speedClamp ((0 + 0 * 1 * 150) * (98/100)) ((0 + 0 * 1 * 150) * (98/100))
      = (0, 0)
  rw [show ((0:ℝ) + 0 * 1 * 150) * (98/100) = 0 by norm_num]
  exact speedClamp_zero

/-- C3 counterexample: a concrete tick of the one-particle system whose
particle rests exactly at `x = +halfWidth = 1`: after `update(1)` (whose
last step is the boundary handling) the position is still `(1, 0)`, and
`1 < halfWidth` is false — the claimed half-open invariant
`position.x ∈ [−halfWidth, halfWidth)` fails, because `handleBoundaries`
only wraps for `position > halfWidth`, leaving `position = halfWidth`
itself in place. -/
theorem update_lands_on_halfWidth :
    (demoSys.update 1).positions 0 = (1, 0) ∧
    (demoSys.update 1).worldWidth / 2 = 1 ∧
    ¬ (((demoSys.update 1).positions 0).1 < (demoSys.update 1).worldWidth / 2) := by
  have hupd : demoSys.update 1 = (demoSys.integrate 1).handleBoundaries := by
    unfold ParticleSystem.update
    rw [demoSys_calculateForces]
  have hint : (demoSys.integrate 1).positions 0 = (1, 0) := by
    unfold ParticleSystem.integrate
    simp only [if_pos (Nat.one_pos : 0 < demoSys.particleCount), demoSys_integVel]
    show ((1:ℝ) + 0 * 1, (0:ℝ) + 0 * 1) = (1, 0)
    norm_num
  have hpos : (demoSys.update 1).positions 0 = (1, 0) := by
    rw [hupd]
    simp only [ParticleSystem.handleBoundaries]
    rw [if_pos]
    · rw [hint]
      show (wrapCoord 1 ((demoSys.integrate 1).worldWidth / 2)
          (demoSys.integrate 1).worldWidth,
        wrapCoord 0 ((demoSys.integrate 1).worldHeight / 2)
          (demoSys.integrate 1).worldHeight) = (1, 0)
      have hw : (demoSys.integrate 1).worldWidth = 2 := rfl
      have hh : (demoSys.integrate 1).worldHeight = 2 := rfl
      rw [hw, hh]
      simp only [wrapCoord]
      norm_num
    · exact Nat.one_pos
  have hw2 : (demoSys.update 1).worldWidth / 2 = 1 := by
    rw [hupd]
    show (2:ℝ) / 2 = 1
    norm_num
  refine ⟨hpos, hw2, ?_⟩
  rw [hpos, hw2]
  norm_num

/-! ## Claim C6: the integration step -/

/-- After the speed clamp the speed is at most 120: either it already was,
or the velocity was rescaled to have speed exactly 120. -/
theorem speedClamp_speed_le (vx vy : ℝ) :
    Real.sqrt ((speedClamp vx vy).1 * (speedClamp vx vy).1 +
      (speedClamp vx vy).2 * (speedClamp vx vy).2) ≤ 120 := by
  unfold speedClamp
  by_cases h : Real.sqrt (vx * vx + vy * vy) > 120
  · rw [if_pos h]
    have hS : 0 ≤ vx * vx + vy * vy :=
      add_nonneg (mul_self_nonneg vx) (mul_self_nonneg vy)
    have hs0 : (0:ℝ) < Real.sqrt (vx * vx + vy * vy) := by linarith
    have hsq : Real.sqrt (vx * vx + vy * vy) * Real.sqrt (vx * vx + vy * vy)
        = vx * vx + vy * vy := Real.mul_self_sqrt hS
    have hS0 : vx * vx + vy * vy ≠ 0 := by
      rw [← hsq]; exact ne_of_gt (mul_pos hs0 hs0)
    have hstep : vx / Real.sqrt (vx * vx + vy * vy) * 120 *
          (vx / Real.sqrt (vx * vx + vy * vy) * 120) +
        vy / Real.sqrt (vx * vx + vy * vy) * 120 *
          (vy / Real.sqrt (vx * vx + vy * vy) * 120)
        = (vx * vx + vy * vy) /
            (Real.sqrt (vx * vx + vy * vy) * Real.sqrt (vx * vx + vy * vy))
            * (120 * 120) := by ring
    show Real.sqrt (vx / Real.sqrt (vx * vx + vy * vy) * 120 *
          (vx / Real.sqrt (vx * vx + vy * vy) * 120) +
        vy / Real.sqrt (vx * vx + vy * vy) * 120 *
          (vy / Real.sqrt (vx * vx + vy * vy) * 120)) ≤ 120
    rw [hstep, hsq, div_self hS0, one_mul,
      Real.sqrt_mul_self (by norm_num : (0:ℝ) ≤ 120)]
  · rw [if_neg h]
    exact not_lt.mp h

/-- C6: `integrate(deltaTime)` performs exactly the specified steps in
order — velocity plus `force·deltaTime·forceScale`, damping, speed clamp
(forceScale = 150, damping = 0.98, maxSpeed = 120, uniformly for all
particles), then position plus the new velocity times `deltaTime` — and
consequently after every tick (`update`) every particle speed is at
most maxSpeed = 120. -/
theorem integrate_matches_spec (s : ParticleSystem) (deltaTime : ℝ) (i : ℕ)
    (hi : i < s.particleCount) :
    (s.integrate deltaTime).velocities i
        = integrationSpec (s.velocities i) (s.forces i) deltaTime ∧
    (s.integrate deltaTime).positions i
        = ((s.positions i).1
            + (integrationSpec (s.velocities i) (s.forces i) deltaTime).1 * deltaTime,
           (s.positions i).2
            + (integrationSpec (s.velocities i) (s.forces i) deltaTime).2 * deltaTime) ∧
    Real.sqrt (((s.update deltaTime).velocities i).1 * ((s.update deltaTime).velocities i).1
        + ((s.update deltaTime).velocities i).2 * ((s.update deltaTime).velocities i).2)
      ≤ 120 := by
  refine ⟨?_, ?_, ?_⟩
  · simp only [ParticleSystem.integrate, if_pos hi]
    rfl
  · simp only [ParticleSystem.integrate, if_pos hi]
    rfl
  · have hv : (s.update deltaTime).velocities i
        = ParticleSystem.integVel
            ({ s with forces := fun _ => (0, 0) } : ParticleSystem).calculateForces
            deltaTime i := by
      simp only [ParticleSystem.update, ParticleSystem.handleBoundaries,
        ParticleSystem.integrate, ParticleSystem.calculateForces]
      rw [if_pos hi]
    rw [hv]
    exact speedClamp_speed_le _ _

/-- Witness for C6 at the concrete one-particle system. -/
theorem integrate_matches_spec_witness :
    0 < demoSys.particleCount ∧
    ((demoSys.integrate 1).velocities 0
        = integrationSpec (demoSys.velocities 0) (demoSys.forces 0) 1 ∧
     (demoSys.integrate 1).positions 0
        = ((demoSys.positions 0).1
            + (integrationSpec (demoSys.velocities 0) (demoSys.forces 0) 1).1 * 1,
           (demoSys.positions 0).2
            + (integrationSpec (demoSys.velocities 0) (demoSys.forces 0) 1).2 * 1) ∧
     Real.sqrt (((demoSys.update 1).velocities 0).1 * ((demoSys.update 1).velocities 0).1
        + ((demoSys.update 1).velocities 0).2 * ((demoSys.update 1).velocities 0).2)
      ≤ 120) :=
  ⟨Nat.one_pos, integrate_matches_spec demoSys 1 0 Nat.one_pos⟩

/-! ## Claim C2: the interaction-matrix range -/

/-- C2 counterexample: `setColorRule(0, 0, 2)` on the concrete system
stores the raw value 2, which is outside `[-1, 1]` — the setter performs
no clamping (it only checks the indices). -/
theorem setColorRule_does_not_clamp :
    (demoSys.setColorRule 0 0 2).getColorRule 0 0 = 2 ∧
    ¬ ((demoSys.setColorRule 0 0 2).getColorRule 0 0 ≤ 1) := by
  have h : (demoSys.setColorRule 0 0 2).getColorRule 0 0 = 2 := by
    unfold ParticleSystem.setColorRule ParticleSystem.getColorRule
    norm_num [demoSys]
  refine ⟨h, ?_⟩
  rw [h]
  norm_num

/-- C2 (amended): for in-range indices `setColorRule` stores the given
value UNCHANGED (no clamp), so stored entries follow the value given by the caller;
the entries seeded by construction and by `randomizeRules` lie in
`[-1.5, 1.5]` — `-0.4` on the diagonal and `(u − 0.5)·3` with
`u ∈ [0, 1)` off it — not in `[-1, 1]`. -/
theorem colorMatrix_seed_range (s : ParticleSystem) (a b : ℤ) (v : ℝ)
    (ha1 : 0 ≤ a) (ha2 : a < (s.colorCount : ℤ))
    (hb1 : 0 ≤ b) (hb2 : b < (s.colorCount : ℤ))
    (cc : ℕ) (rng : ℕ → ℕ → ℝ)
    (hr : ∀ i j, 0 ≤ rng i j ∧ rng i j < 1)
    (i j : ℕ) (hi : i < cc) (hj : j < cc) :
    (s.setColorRule a b v).getColorRule a b = v ∧
    (s.randomizeRules rng).colorMatrix = generateColorMatrix s.colorCount rng ∧
    -(3/2) ≤ generateColorMatrix cc rng (i * cc + j) ∧
    generateColorMatrix cc rng (i * cc + j) ≤ 3/2 := by
  have hcc : 0 < cc := Nat.pos_of_ne_zero (by omega)
  have hkey : i * cc + j < cc * cc := by
    calc i * cc + j < i * cc + cc := by omega
    _ = (i + 1) * cc := by ring
    _ ≤ cc * cc := Nat.mul_le_mul_right cc hi
  have hdiv : (i * cc + j) / cc = i := by
    rw [Nat.add_comm, Nat.add_mul_div_right j i hcc, Nat.div_eq_of_lt hj]
    omega
  have hmod : (i * cc + j) % cc = j := by
    rw [Nat.add_comm, Nat.add_mul_mod_self_right, Nat.mod_eq_of_lt hj]
  refine ⟨?_, rfl, ?_⟩
  · have hcond : 0 ≤ a ∧ a < (s.colorCount : ℤ) ∧ 0 ≤ b ∧ b < (s.colorCount : ℤ) :=
      ⟨ha1, ha2, hb1, hb2⟩
    unfold ParticleSystem.setColorRule ParticleSystem.getColorRule
    rw [if_pos hcond]
    rw [if_pos hcond]
    simp
  · unfold generateColorMatrix
    rw [if_pos hkey, hdiv, hmod]
    by_cases hij : i = j
    · rw [if_pos hij]
      norm_num
    · rw [if_neg hij]
      have := hr i j
      constructor <;> nlinarith [this.1, this.2]

/-- Witness for the amended C2 at concrete indices and a constant random
oracle. -/
theorem colorMatrix_seed_range_witness :
    ((0:ℤ) ≤ 0 ∧ (0:ℤ) < (demoSys.colorCount : ℤ) ∧ (0:ℕ) < 2 ∧ (1:ℕ) < 2) ∧
    ((demoSys.setColorRule 0 0 (1/2)).getColorRule 0 0 = 1/2 ∧
     (demoSys.randomizeRules (fun _ _ => 1/2)).colorMatrix
        = generateColorMatrix demoSys.colorCount (fun _ _ => 1/2) ∧
     -(3/2) ≤ generateColorMatrix 2 (fun _ _ => 1/2) (0 * 2 + 1) ∧
     generateColorMatrix 2 (fun _ _ => 1/2) (0 * 2 + 1) ≤ 3/2) :=
  ⟨⟨le_refl 0, by norm_num [demoSys], by norm_num, by norm_num⟩,
   colorMatrix_seed_range demoSys 0 0 (1/2)
     (le_refl 0) (by norm_num [demoSys]) (le_refl 0) (by norm_num [demoSys])
     2 (fun _ _ => 1/2) (fun _ _ => by norm_num)
     0 1 (by norm_num) (by norm_num)⟩

/-! ## Claim C7: constructor validation -/

/-- A configuration with zero particles and zero colors. -/
def zeroConfig : ParticleSystemConfig :=
  { particleCount := 0
    worldWidth := 100
    worldHeight := 100
    colorCount := 0
    sensingRadius := none
    betaDistance := none }

/-- C7 counterexample: construction with `particleCount = 0` and
`colorCount = 0` SUCCEEDS (`isSome`), although both are `< 1` — the
constructor performs no count validation; the only failures are the
negative array lengths rejected by the typed-array allocations. -/
theorem create_accepts_zero_counts :
    (ParticleSystem.create zeroConfig (fun _ _ => 1/2)
        (fun _ => 1/2) (fun _ => 1/2) (fun _ => 1/2)).isSome = true ∧
    zeroConfig.particleCount < 1 ∧ zeroConfig.colorCount < 1 := by
  refine ⟨?_, by norm_num [zeroConfig], by norm_num [zeroConfig]⟩
  unfold ParticleSystem.create allocArray
  norm_num [zeroConfig]

/-- C7 (amended): construction fails exactly when `particleCount < 0` or
`colorCount < 0` (a negative typed-array length throws); every
configuration with nonnegative counts — including the counts 0 the claim
says are rejected — succeeds, and nothing rejects counts `< 1`. -/
theorem create_isSome_iff (cfg : ParticleSystemConfig)
    (rngMatrix : ℕ → ℕ → ℝ) (rngPosX rngPosY rngColor : ℕ → ℝ) :
    (ParticleSystem.create cfg rngMatrix rngPosX rngPosY rngColor).isSome = true
      ↔ (0 ≤ cfg.particleCount ∧ 0 ≤ cfg.colorCount) := by
  have hcc : ¬ (cfg.colorCount * cfg.colorCount < 0) :=
    not_lt.mpr (mul_self_nonneg cfg.colorCount)
  unfold ParticleSystem.create allocArray
  rcases lt_or_le cfg.particleCount 0 with hp | hp
  · have h2 : cfg.particleCount * 2 < 0 := by linarith
    simp [h2, hp, not_le.mpr hp]
  · have h2 : ¬ (cfg.particleCount * 2 < 0) := by push_neg; linarith
    have h3 : ¬ (cfg.particleCount * 3 < 0) := by push_neg; linarith
    have h1 : ¬ (cfg.particleCount < 0) := not_lt.mpr hp
    rcases lt_or_le cfg.colorCount 0 with hc | hc
    · have hc3 : cfg.colorCount * 3 < 0 := by linarith
      simp [h1, h2, h3, hc3, hp, not_le.mpr hc]
    · have hc3 : ¬ (cfg.colorCount * 3 < 0) := by push_neg; linarith
      simp [h1, h2, h3, hc3, hcc, hp, hc]

/-! ## Claim C8: out-of-range matrix indices -/

/-- C8: when `a` or `b` is outside `[0, colorCount)`, `setColorRule` is a
no-op on the whole state and `getColorRule` returns 0. -/
theorem colorRule_out_of_range (s : ParticleSystem) (a b : ℤ) (v : ℝ)
    (h : a < 0 ∨ (s.colorCount : ℤ) ≤ a ∨ b < 0 ∨ (s.colorCount : ℤ) ≤ b) :
    s.setColorRule a b v = s ∧ s.getColorRule a b = 0 := by
  have hcond : ¬ (0 ≤ a ∧ a < (s.colorCount : ℤ) ∧
      0 ≤ b ∧ b < (s.colorCount : ℤ)) := by
    rintro ⟨h1, h2, h3, h4⟩
    rcases h with h | h | h | h <;> linarith
  unfold ParticleSystem.setColorRule ParticleSystem.getColorRule
  rw [if_neg hcond, if_neg hcond]
  exact ⟨rfl, rfl⟩

/-- Witness for C8: index `-1` on the concrete system. -/
theorem colorRule_out_of_range_witness :
    ((-1:ℤ) < 0 ∨ (demoSys.colorCount : ℤ) ≤ -1 ∨ (0:ℤ) < 0 ∨
      (demoSys.colorCount : ℤ) ≤ 0) ∧
    (demoSys.setColorRule (-1) 0 5 = demoSys ∧
     demoSys.getColorRule (-1) 0 = 0) :=
  ⟨Or.inl (by norm_num),
   colorRule_out_of_range demoSys (-1) 0 5 (Or.inl (by norm_num))⟩

/-! ## Claim C10: the frame of `update` -/

/-- C10: a tick `update(deltaTime)` can change only the positions,
velocities and forces: the colors, color indices, sizes, the interaction
matrix, the palette, the world size, the sensing radius, the beta
distance and the counts are identical before and after, for every state
and every `deltaTime`. -/
theorem update_frame (s : ParticleSystem) (deltaTime : ℝ) :
    (s.update deltaTime).colors = s.colors ∧
    (s.update deltaTime).colorIndices = s.colorIndices ∧
    (s.update deltaTime).sizes = s.sizes ∧
    (s.update deltaTime).colorMatrix = s.colorMatrix ∧
    (s.update deltaTime).colorPalette = s.colorPalette ∧
    (s.update deltaTime).worldWidth = s.worldWidth ∧
    (s.update deltaTime).worldHeight = s.worldHeight ∧
    (s.update deltaTime).sensingRadius = s.sensingRadius ∧
    (s.update deltaTime).betaDistance = s.betaDistance ∧
    (s.update deltaTime).particleCount = s.particleCount ∧
    (s.update deltaTime).colorCount = s.colorCount :=
  ⟨rfl, rfl, rfl, rfl, rfl, rfl, rfl, rfl, rfl, rfl, rfl⟩

end

end ParticleLifeDemo
